import Mathlib

/-!
# Verification of the memory/metrics core of the `my_ai_crew` agent

Shallow Lean embedding of the repository's memory subsystem and metrics
pipeline, translated from the Python sources:

* `src/memory/short_term_memory.py` — bounded FIFO message buffer;
* `src/memory/memory_store.py` — long-term store: retrieval with confidence
  normalization, metric-event emission, deletion and clearing;
* `src/utils/metrics_logger.py` — four-stream metrics aggregator;
* `src/agents/memory_agent.py` — response-quality heuristic.

Machine floats are embedded as exact rationals (`ℚ`); Python lists as Lean
lists; Python dicts with a fixed key set as structures; string-keyed counter
dicts as association lists.  Wall-clock quantities (`time.time()`,
`datetime.now()`) are threaded as explicit parameters or omitted where no
claim depends on them.
-/

/-! ## Messages and the short-term buffer (`src/memory/short_term_memory.py`) -/

/-- Message role: `HumanMessage` (user) or `AIMessage` (agent). -/
inductive Role where
  | user
  | ai
deriving DecidableEq, Repr

/-- A conversation message, as appended by `add_user_message` /
`add_ai_message` (content plus role; the creation timestamp of the buffer is
irrelevant to the buffer contents). -/
structure Msg where
  role : Role
  content : String
deriving DecidableEq, Repr

/-- Python's tail slice `l[-k:]` on a list, for `k : Nat`.
Note the Python quirk embedded faithfully: `l[-0:]` is `l[0:]`, the whole
list, not the empty list. -/
def pyTailSlice {α : Type} (l : List α) (k : Nat) : List α :=
  if k = 0 then l else l.drop (l.length - k)

/-- `ShortTermMemory._trim_messages`:
`if len(self.messages) > self.max_messages: self.messages = self.messages[-self.max_messages:]`. -/
def trim_messages (max_messages : Nat) (l : List Msg) : List Msg :=
  if max_messages < l.length then pyTailSlice l max_messages else l

/-- Common body of `add_user_message` / `add_ai_message`:
append the message, then trim. -/
def add_message (max_messages : Nat) (l : List Msg) (m : Msg) : List Msg :=
  trim_messages max_messages (l ++ [m])

/-- `ShortTermMemory.add_user_message`. -/
def add_user_message (max_messages : Nat) (l : List Msg) (content : String) : List Msg :=
  add_message max_messages l ⟨Role.user, content⟩

/-- `ShortTermMemory.add_ai_message`. -/
def add_ai_message (max_messages : Nat) (l : List Msg) (content : String) : List Msg :=
  add_message max_messages l ⟨Role.ai, content⟩

/-- The buffer contents after a sequence of appends to a fresh
`ShortTermMemory(max_messages)` (each element of `ms` appended in order via
`add_user_message`/`add_ai_message`; both share `add_message`). -/
def run_appends (max_messages : Nat) (ms : List Msg) : List Msg :=
  ms.foldl (add_message max_messages) []

/-- `ShortTermMemory.get_recent_messages`:
`return self.messages[-n:] if len(self.messages) > n else self.messages`. -/
def get_recent_messages (l : List Msg) (n : Nat) : List Msg :=
  if n < l.length then pyTailSlice l n else l

/-! ## Substring containment and Python `str.lower`
(used by `MemoryAgent._analyze_response_quality`) -/

/-- `leadsList pat l` holds when `pat` is the initial run of `l`. -/
def leadsList : List Char → List Char → Bool
  | [], _ => true
  | _ :: _, [] => false
  | p :: ps, c :: cs => p == c && leadsList ps cs

/-- `hasSubList pat l`: `pat` occurs contiguously somewhere in `l`. -/
def hasSubList : List Char → List Char → Bool
  | pat, [] => pat.isEmpty
  | pat, c :: cs => leadsList pat (c :: cs) || hasSubList pat cs

/-- Python's substring test `pat in s`. -/
def strContains (s pat : String) : Bool :=
  hasSubList pat.toList s.toList

/-- Python `str.lower`, restricted to the alphabets the source's fixed
keyword lists can meet (ASCII `A`–`Z` and Cyrillic `А`–`Я`, `Ё`); all other
characters are unchanged, as in CPython for non-cased characters. -/
def pyCharLower (c : Char) : Char :=
  if 'A' ≤ c && c ≤ 'Z' then Char.ofNat (c.toNat + 32)
  else if c = 'Ё' then 'ё'
  else if 'А' ≤ c && c ≤ 'Я' then Char.ofNat (c.toNat + 32)
  else c

/-- Python `response.lower()`. -/
def pyLower (s : String) : String :=
  String.mk (s.toList.map pyCharLower)

/-! ## Response-quality heuristic (`src/agents/memory_agent.py`) -/

/-- The structural markers checked by `_analyze_response_quality`:
`["✅", "📚", "📅", "\n"]`. -/
def structure_markers : List String := ["✅", "📚", "📅", "\n"]

/-- The refusal keyword set of `_analyze_response_quality`:
`["не могу", "не могу помочь", "извините", "sorry"]`. -/
def refusal_keywords : List String := ["не могу", "не могу помочь", "извините", "sorry"]

/-- `MemoryAgent._analyze_response_quality`, translated statement by
statement: base `0.5`; `+0.2` for length in `[50, 500]`; `+0.1` for a
structural marker; early `return 0.2` on a refusal keyword in the lowercased
response; final `min(score, 1.0)`. -/
def analyze_response_quality (response : String) : ℚ :=
  let score : ℚ := 0.5
  let score : ℚ := if 50 ≤ response.length ∧ response.length ≤ 500 then score + 0.2 else score
  let score : ℚ := if structure_markers.any (fun m => strContains response m) then score + 0.1 else score
  if refusal_keywords.any (fun k => strContains (pyLower response) k) then 0.2
  else min score 1

/-! ## Long-term store retrieval (`src/memory/memory_store.py`) -/

/-- A document held by the vector index: its text and the `category` entry of
its metadata (`None` when absent; the source reads no other metadata key on
the retrieval path). -/
structure StoredDoc where
  page_content : String
  category : Option String
deriving DecidableEq, Repr

/-- One element of the list returned by `retrieve_memories_with_scores`
(the dict `{"content": …, "metadata": …, "relevance_score": …}`). -/
structure RetrievedMemory where
  content : String
  category : Option String
  relevance_score : ℚ
deriving DecidableEq, Repr

/-- One Retrieval metric event, i.e. the argument record of one
`MetricsLogger.log_rag_metrics` call (timestamp and free-form metadata
omitted: no claim reads them). -/
structure RagEvent where
  retrieval_confidence_scores : List ℚ
  num_chunks_retrieved : Nat
  source_diversity : Nat
  retrieval_latency : ℚ
deriving DecidableEq, Repr

/-- The vector-index interaction of one `retrieve_memories_with_scores`
call: which search method the store object has (`hasattr(self.vectorstore,
'similarity_search_with_score')`) and what that call then does — return
results or raise. -/
inductive SearchCall where
  | withScore (res : Except String (List (StoredDoc × ℚ)))
  | plain (res : Except String (List StoredDoc))

/-- Distance → confidence conversion of `retrieve_memories_with_scores`:
`confidence = max(0.0, min(1.0, 1.0 - (distance / 2.0)))`. -/
def confidence_of_distance (d : ℚ) : ℚ :=
  max 0 (min 1 (1 - d / 2))

/-- Modelled from the spec: `clamp(x, lo, hi)` as used in the spec's
confidence contract `confidence = clamp(1 - distance/2, 0, 1)`. -/
def spec_clamp (lo hi x : ℚ) : ℚ :=
  max lo (min hi x)

/-- The `sources` set of `retrieve_memories_with_scores`: distinct truthy
`category` metadata values among the returned documents
(`if doc.metadata.get("category"): sources.add(...)`; `None` and the empty
string are falsy). -/
def truthy_categories (docs : List StoredDoc) : List String :=
  ((docs.filterMap StoredDoc.category).filter (fun c => c != "")).dedup

/-- `MemoryStore.retrieve_memories_with_scores`, returning the memory list
it returns and the list of Retrieval metric events it emits
(`log_rag_metrics` calls, in order).  `has_logger` is whether
`self.metrics_logger` is set; `latency` is the measured wall-clock
`time.time() - start_time`, threaded as a parameter.  The three paths of the
source: with-score search, plain-search fallback, and the exception handler
that logs an empty-scores event and returns `[]`. -/
def retrieve_memories_with_scores (call : SearchCall) (has_logger : Bool) (latency : ℚ) :
    List RetrievedMemory × List RagEvent :=
  match call with
  | SearchCall.withScore (Except.ok results) =>
      let memories := results.map (fun p => ⟨p.1.page_content, p.1.category, p.2⟩)
      let confidence_scores := results.map (fun p => confidence_of_distance p.2)
      let sources := truthy_categories (results.map Prod.fst)
      let events :=
        if has_logger then
          let cs := if confidence_scores = [] then [(0 : ℚ)] else confidence_scores
          [⟨cs, memories.length, sources.length, latency⟩]
        else []
      (memories, events)
  | SearchCall.plain (Except.ok docs) =>
      let memories : List RetrievedMemory := docs.map (fun d => ⟨d.page_content, d.category, 1⟩)
      let sources := truthy_categories docs
      let events :=
        if has_logger then
          let cs := if memories = [] then [(0 : ℚ)] else List.replicate memories.length (0.5 : ℚ)
          [⟨cs, memories.length, sources.length, latency⟩]
        else []
      (memories, events)
  | SearchCall.withScore (Except.error _) | SearchCall.plain (Except.error _) =>
      ([], if has_logger then [⟨[], 0, 0, latency⟩] else [])

/-! ## Metrics aggregator (`src/utils/metrics_logger.py`)

The aggregator's mutable `self.aggregated_metrics` dict is embedded as the
structure `AggState` below, one sub-structure per stream.  Each Python inner
dict has a fixed key set at construction; `get_aggregated_metrics` later
assigns *additional* derived-rate keys into these dicts, so every derived
rate is embedded as an `Option` field that is `none` exactly when the key is
absent.  `start_time` / `uptime_seconds` (wall clock) and the raw per-event
lists written to `.jsonl` files are not modelled: no claim reads them — the
emitted events themselves are modelled as `RagEvent` values on the
retrieval side. -/

/-- The `"prompts"` entry of `aggregated_metrics`. -/
structure PromptAgg where
  total_requests : Nat
  total_refusals : Nat
  total_response_length : Nat
  format_compliance_count : Nat
  quality_scores : List ℚ
  average_response_length : Option ℚ
  refusal_rate : Option ℚ
  format_compliance_rate : Option ℚ
  average_quality_score : Option ℚ
deriving DecidableEq, Repr

/-- The `"rag"` entry of `aggregated_metrics`. -/
structure RagAgg where
  total_retrievals : Nat
  total_chunks_retrieved : Nat
  total_retrieval_latency : ℚ
  confidence_scores : List ℚ
  source_diversity : List Nat
  average_chunks_retrieved : Option ℚ
  average_retrieval_latency : Option ℚ
  average_confidence_score : Option ℚ
  average_source_diversity : Option ℚ
deriving DecidableEq, Repr

/-- The `"agents"` entry of `aggregated_metrics`; the string-keyed counter
dicts are association lists. -/
structure AgentsAgg where
  total_tasks : Nat
  completed_tasks : Nat
  total_steps : Nat
  tool_calls : List (String × Nat)
  tool_successes : List (String × Nat)
  errors : List (String × Nat)
  total_cost : ℚ
  task_completion_rate : Option ℚ
  average_steps_to_completion : Option ℚ
  average_cost_per_task : Option ℚ
  tool_success_rates : Option (List (String × ℚ))
deriving DecidableEq, Repr

/-- The `"system"` entry of `aggregated_metrics` (wall-clock
`start_time`/`uptime_seconds` omitted). -/
structure SystemAgg where
  total_requests : Nat
  successful_requests : Nat
  total_latency : ℚ
  total_cost : ℚ
  errors : Nat
  task_success_rate : Option ℚ
  average_latency : Option ℚ
  average_cost_per_request : Option ℚ
  error_rate : Option ℚ
deriving DecidableEq, Repr

/-- The whole `self.aggregated_metrics` record. -/
structure AggState where
  prompts : PromptAgg
  rag : RagAgg
  agents : AgentsAgg
  system : SystemAgg
deriving DecidableEq, Repr

/-- `MetricsLogger.__init__`: all counters zero, all lists empty, no
derived-rate keys present. -/
def initialAggState : AggState where
  prompts := ⟨0, 0, 0, 0, [], none, none, none, none⟩
  rag := ⟨0, 0, 0, [], [], none, none, none, none⟩
  agents := ⟨0, 0, 0, [], [], [], 0, none, none, none, none⟩
  system := ⟨0, 0, 0, 0, 0, none, none, none, none⟩

/-- `MetricsLogger.log_prompt_metrics`: its update of
`aggregated_metrics["prompts"]` (the raw-event append and file write carry
the same data and are not modelled). -/
def log_prompt_metrics (st : AggState) (response_quality_score : ℚ)
    (format_compliant refused : Bool) (response_length : Nat) : AggState :=
  { st with prompts := { st.prompts with
      total_requests := st.prompts.total_requests + 1,
      total_refusals := st.prompts.total_refusals + (if refused then 1 else 0),
      format_compliance_count :=
        st.prompts.format_compliance_count + (if format_compliant then 1 else 0),
      total_response_length := st.prompts.total_response_length + response_length,
      quality_scores := st.prompts.quality_scores ++ [response_quality_score] } }

/-- `MetricsLogger.log_rag_metrics`: its update of
`aggregated_metrics["rag"]` by one Retrieval event. -/
def log_rag_metrics (st : AggState) (ev : RagEvent) : AggState :=
  { st with rag := { st.rag with
      total_retrievals := st.rag.total_retrievals + 1,
      total_chunks_retrieved := st.rag.total_chunks_retrieved + ev.num_chunks_retrieved,
      total_retrieval_latency := st.rag.total_retrieval_latency + ev.retrieval_latency,
      confidence_scores := st.rag.confidence_scores ++ ev.retrieval_confidence_scores,
      source_diversity := st.rag.source_diversity ++ [ev.source_diversity] } }

/-- `dict.get(name, 0)` on a string-keyed counter dict. -/
def lookup_count (m : List (String × Nat)) (k : String) : Nat :=
  ((m.find? (fun p => p.1 == k)).map Prod.snd).getD 0

/-- `MetricsLogger.get_aggregated_metrics`.

The source starts with `metrics = self.aggregated_metrics.copy()` — a
*shallow* copy: `metrics["prompts"]`, `metrics["rag"]`, … are the very inner
dict objects held by `self.aggregated_metrics`.  Every assignment
`metrics[stream][rate] = …` therefore also stores the derived rate into the
logger's own aggregated state.  Consequently the returned snapshot and the
logger's internal state after the call coincide per stream, and this one
function gives both.  Derived keys are only ever assigned, never deleted, so
a stream whose guard is false keeps whatever derived fields it already had. -/
def get_aggregated_metrics (st : AggState) : AggState :=
  let p := st.prompts
  let p :=
    if 0 < p.total_requests then
      { p with
        average_response_length :=
          some ((p.total_response_length : ℚ) / (p.total_requests : ℚ)),
        refusal_rate := some ((p.total_refusals : ℚ) / (p.total_requests : ℚ)),
        format_compliance_rate :=
          some ((p.format_compliance_count : ℚ) / (p.total_requests : ℚ)),
        average_quality_score :=
          if p.quality_scores ≠ [] then
            some (p.quality_scores.sum / (p.quality_scores.length : ℚ))
          else p.average_quality_score }
    else p
  let r := st.rag
  let r :=
    if 0 < r.total_retrievals then
      { r with
        average_chunks_retrieved :=
          some ((r.total_chunks_retrieved : ℚ) / (r.total_retrievals : ℚ)),
        average_retrieval_latency :=
          some (r.total_retrieval_latency / (r.total_retrievals : ℚ)),
        average_confidence_score :=
          if r.confidence_scores ≠ [] then
            some (r.confidence_scores.sum / (r.confidence_scores.length : ℚ))
          else r.average_confidence_score,
        average_source_diversity :=
          if r.source_diversity ≠ [] then
            some (((r.source_diversity.map (Nat.cast : Nat → ℚ)).sum) /
              (r.source_diversity.length : ℚ))
          else r.average_source_diversity }
    else r
  let a := st.agents
  let a :=
    if 0 < a.total_tasks then
      { a with
        task_completion_rate := some ((a.completed_tasks : ℚ) / (a.total_tasks : ℚ)),
        average_steps_to_completion := some ((a.total_steps : ℚ) / (a.total_tasks : ℚ)),
        average_cost_per_task := some (a.total_cost / (a.total_tasks : ℚ)),
        tool_success_rates :=
          some (a.tool_calls.map (fun nc =>
            (nc.1,
              if 0 < nc.2 then (lookup_count a.tool_successes nc.1 : ℚ) / (nc.2 : ℚ)
              else 0))) }
    else a
  let s := st.system
  let s :=
    if 0 < s.total_requests then
      { s with
        task_success_rate := some ((s.successful_requests : ℚ) / (s.total_requests : ℚ)),
        average_latency := some (s.total_latency / (s.total_requests : ℚ)),
        average_cost_per_request := some (s.total_cost / (s.total_requests : ℚ)),
        error_rate := some ((s.errors : ℚ) / (s.total_requests : ℚ)) }
    else s
  { prompts := p, rag := r, agents := a, system := s }

/-! ## Chunk splitting (`MemoryStore.save_memory`) -/

/-- Modelled from the spec: the text splitter used by
`MemoryStore.save_memory` is `RecursiveCharacterTextSplitter` from the
`langchain_text_splitters` library — code not under `src/`.  The spec's
contract: content is split into ordered fragments of at most `chunk_size`
characters, consecutive fragments overlapping by the configured `overlap`,
so each further fragment advances the window by `chunk_size - overlap`
characters until the remainder fits in a single fragment; empty content
yields no fragment.  This function gives the number of fragments produced
for content of length `len` (the degenerate `chunk_size ≤ overlap`
configuration, which the spec never allows, yields a single fragment). -/
def num_chunks (chunk_size overlap len : Nat) : Nat :=
  if len = 0 then 0
  else if len ≤ chunk_size then 1
  else if _h : overlap < chunk_size then
    1 + num_chunks chunk_size overlap (len - (chunk_size - overlap))
  else 1
termination_by len
decreasing_by omega

/-! ## Deletion and clearing (`src/memory/memory_store.py`) -/

/-- The Chroma collection as `delete_memory` / `get_all_memories` /
`clear_all_memories` see it: the stored chunk ids, plus whether the
backend's `get` and `delete` calls raise. -/
structure VectorStoreBackend where
  stored_ids : List String
  get_raises : Bool
  delete_raises : Bool
deriving DecidableEq, Repr

/-- `MemoryStore.get_all_memories(limit=100)`, projected to the `"ids"`
entry it is consumed for: returns up to `limit` ids, or the empty
collection if the backend `get` raises (the exception is caught). -/
def get_all_memories (b : VectorStoreBackend) (limit : Nat := 100) : List String :=
  if b.get_raises then [] else b.stored_ids.take limit

/-- `MemoryStore.delete_memory(ids)`: success boolean (False when the
backend `delete` raises; the exception is caught) and the resulting
collection. -/
def delete_memory (b : VectorStoreBackend) (ids : List String) :
    Bool × VectorStoreBackend :=
  if b.delete_raises then (false, b)
  else (true, { b with stored_ids := b.stored_ids.filter (fun i => !(ids.contains i)) })

/-- `MemoryStore.clear_all_memories`: lists ids via `get_all_memories()`
(default `limit=100`), calls `delete_memory` on them when nonempty —
*discarding its boolean result* — and returns `True`; both callees swallow
their exceptions, so the `except` branch returning `False` is unreachable. -/
def clear_all_memories (b : VectorStoreBackend) : Bool × VectorStoreBackend :=
  let all_ids := get_all_memories b
  if all_ids.isEmpty then (true, b)
  else
    let r := delete_memory b all_ids
    (true, r.2)

/-! ## Theorems -/

/-- C2: for every distance `d` returned by the vector index, the confidence
stored in a retrieval result equals `clamp(1 - d/2, 0, 1)`; distance `0`
maps to `1.0`, `1` to `0.5`, `2` to `0.0`, and the out-of-range distances
`-1` and `3` clamp to `1.0` and `0.0`.  The last conjunct ties the
conversion to the retrieval path: the confidence logged for a single result
at distance `d` is `confidence_of_distance d`. -/
theorem confidence_normalization_clamp :
    (∀ d : ℚ, confidence_of_distance d = spec_clamp 0 1 (1 - d / 2)) ∧
    confidence_of_distance 0 = 1 ∧
    confidence_of_distance 1 = 0.5 ∧
    confidence_of_distance 2 = 0 ∧
    confidence_of_distance (-1) = 1 ∧
    confidence_of_distance 3 = 0 ∧
    (∀ (doc : StoredDoc) (d latency : ℚ),
      ((retrieve_memories_with_scores (SearchCall.withScore (Except.ok [(doc, d)]))
          true latency).2).map RagEvent.retrieval_confidence_scores
        = [[confidence_of_distance d]]) := by
  refine ⟨fun d => rfl, ?_, ?_, ?_, ?_, ?_, fun doc d latency => ?_⟩
  · norm_num [confidence_of_distance, max_def, min_def]
  · norm_num [confidence_of_distance, max_def, min_def]
  · norm_num [confidence_of_distance, max_def, min_def]
  · norm_num [confidence_of_distance, max_def, min_def]
  · norm_num [confidence_of_distance, max_def, min_def]
  · simp [retrieve_memories_with_scores]

/-- C8: the response-quality heuristic is: base `0.5`, `+0.2` for length in
`[50, 500]`, `+0.1` for a structural marker (newline or an indicator
glyph), overridden to `0.2` whenever a refusal keyword occurs, and never
exceeds `1.0`. -/
theorem response_quality_shape :
    ∀ response : String,
      analyze_response_quality response =
        (if refusal_keywords.any (fun k => strContains (pyLower response) k) then (0.2 : ℚ)
         else min ((0.5 : ℚ)
              + (if 50 ≤ response.length ∧ response.length ≤ 500 then (0.2 : ℚ) else 0)
              + (if structure_markers.any (fun m => strContains response m) then (0.1 : ℚ) else 0))
            1) ∧
      analyze_response_quality response ≤ 1 := by
  intro r
  constructor
  · simp only [analyze_response_quality]
    split_ifs <;> norm_num
  · simp only [analyze_response_quality]
    split_ifs <;> first
      | exact min_le_right _ _
      | norm_num

/-- C9 (amended): for every `n ≥ 1`, `get_recent_messages` returns exactly
the last `n` messages (all of them when fewer than `n` exist); for `n = 0`
it returns the entire buffer, because the Python slice `messages[-0:]` is
the whole list. -/
theorem get_recent_last_n (l : List Msg) (n : Nat) (h : 1 ≤ n) :
    get_recent_messages l n = l.drop (l.length - n) ∧
    get_recent_messages l 0 = l := by
  constructor
  · unfold get_recent_messages pyTailSlice
    split_ifs with h1 h2
    · omega
    · rfl
    · have h0 : l.length - n = 0 := by omega
      rw [h0, List.drop_zero]
  · unfold get_recent_messages pyTailSlice
    split_ifs <;> first | rfl | omega

/-- A concrete three-message buffer used to instantiate the buffer
theorems. -/
def msgs3 : List Msg :=
  [⟨Role.user, "a"⟩, ⟨Role.ai, "b"⟩, ⟨Role.user, "c"⟩]

/-- Witness for C9 at `n = 2` on a three-message buffer. -/
theorem get_recent_last_n_witness :
    get_recent_messages msgs3 2 = [⟨Role.ai, "b"⟩, ⟨Role.user, "c"⟩] ∧
    get_recent_messages msgs3 0 = msgs3 := by
  have h := get_recent_last_n msgs3 2 (by norm_num)
  exact ⟨by rw [h.1]; rfl, h.2⟩

/-- Counterexample for C9 as stated: at `n = 0` on a one-message buffer the
code returns the whole buffer, not the last zero messages (`[]`). -/
theorem get_recent_zero_cex :
    ¬ (get_recent_messages [⟨Role.user, "a"⟩] 0 = []) := by decide

/-- Closed form of the short-term buffer after any append sequence, for a
positive capacity: it always holds exactly the last `max_messages` appended
messages (all of them while fewer exist). -/
theorem run_appends_eq (max_messages : Nat) (h : 1 ≤ max_messages) (ms : List Msg) :
    run_appends max_messages ms = ms.drop (ms.length - max_messages) := by
  induction ms using List.reverseRecOn with
  | nil => simp [run_appends]
  | append_singleton l m ih =>
      have hsnoc : run_appends max_messages (l ++ [m])
          = add_message max_messages (run_appends max_messages l) m := by
        simp [run_appends]
      rw [hsnoc, ih]
      set k := l.length - max_messages with hk
      have hkle : k ≤ l.length := by omega
      unfold add_message trim_messages
      rw [← List.drop_append_of_le_length hkle]
      have hlen : ((l ++ [m]).drop k).length = l.length + 1 - k := by
        simp [List.length_drop]
      by_cases hc : max_messages < l.length + 1 - k
      · rw [if_pos (by rw [hlen]; exact hc)]
        unfold pyTailSlice
        rw [if_neg (by omega), hlen, List.drop_drop]
        have harith : k + (l.length + 1 - k - max_messages)
            = (l ++ [m]).length - max_messages := by
          simp only [List.length_append, List.length_singleton]
          omega
        rw [harith]
      · rw [if_neg (by rw [hlen]; exact hc)]
        have harith : k = (l ++ [m]).length - max_messages := by
          simp only [List.length_append, List.length_singleton]
          omega
        rw [← harith]

/-- C3 (amended): for every capacity `max_messages ≥ 1` and every append
sequence, the buffer length stays `≤ max_messages` after every call, and
once more than `max_messages` messages have been appended the buffer is
exactly the last `max_messages` appended messages in order (strict FIFO).
(Quantifying over `ms` covers the state after *every* call, each prefix of
the append sequence being such an `ms`.)  At capacity `0` the claim fails —
see the counterexample: the trim slice `messages[-0:]` keeps everything. -/
theorem short_term_trim_fifo (max_messages : Nat) (ms : List Msg) (h : 1 ≤ max_messages) :
    (run_appends max_messages ms).length ≤ max_messages ∧
    (max_messages < ms.length →
      run_appends max_messages ms = ms.drop (ms.length - max_messages)) := by
  have he := run_appends_eq max_messages h ms
  refine ⟨?_, fun _ => he⟩
  rw [he]
  simp only [List.length_drop]
  omega

/-- Witness for C3: capacity 2, three appends — the buffer is the last two
messages. -/
theorem short_term_trim_fifo_witness :
    (run_appends 2 msgs3).length ≤ 2 ∧
    run_appends 2 msgs3 = [⟨Role.ai, "b"⟩, ⟨Role.user, "c"⟩] := by
  have h := short_term_trim_fifo 2 msgs3 (by norm_num)
  exact ⟨h.1, by rw [h.2 (by decide)]; rfl⟩

/-- Counterexample for C3 as stated: with capacity `max_messages = 0` a
single append leaves the buffer at length 1 — Python's `messages[-0:]`
slice keeps every message, so the bound `len(messages) <= max_messages`
fails. -/
theorem short_term_capacity_zero_cex :
    ¬ ((run_appends 0 [⟨Role.user, "hi"⟩]).length ≤ 0) := by decide

/-- Chunk-count closed form: for a non-degenerate configuration
(`overlap < chunk_size`) and content longer than the overlap, the number of
fragments is `ceil((len - overlap) / (chunk_size - overlap))`, written with
natural-number ceiling division. -/
theorem num_chunks_formula (chunk_size overlap : Nat) (hov : overlap < chunk_size) :
    ∀ len : Nat, overlap < len →
      num_chunks chunk_size overlap len =
        (len - overlap + (chunk_size - overlap - 1)) / (chunk_size - overlap) := by
  intro len
  induction len using Nat.strong_induction_on with
  | _ len ih =>
    intro hlen
    rw [num_chunks]
    split_ifs with h0 h1
    · omega
    · exact (Nat.div_eq_of_lt_le (by omega) (by omega)).symm
    · have hrec := ih (len - (chunk_size - overlap)) (by omega) (by omega)
      rw [hrec]
      have key : len - overlap + (chunk_size - overlap - 1)
          = len - (chunk_size - overlap) - overlap + (chunk_size - overlap - 1)
            + (chunk_size - overlap) := by omega
      rw [key, Nat.add_div_right _ (by omega : 0 < chunk_size - overlap)]
      omega

/-- C4 (amended): with the configured `chunk_size = 1000` and
`overlap = 200`, saving content of length 2500 produces **3** chunks (not
4), and for every content length `L > overlap` the chunk count equals
`ceil((L - overlap) / (chunk_size - overlap))` — here
`(L - 200 + 799) / 800` in natural division.  (The claim's "4 chunks"
contradicts its own ceiling formula, which gives
`ceil(2300 / 800) = 3`.) -/
theorem save_chunk_count_formula :
    num_chunks 1000 200 2500 = 3 ∧
    ∀ len : Nat, 200 < len → num_chunks 1000 200 len = (len - 200 + 799) / 800 := by
  have h := num_chunks_formula 1000 200 (by norm_num)
  constructor
  · rw [h 2500 (by norm_num)]
  · intro len hl
    have := h len hl
    simpa using this

/-- Witness for C4 at `L = 2500`. -/
theorem save_chunk_count_witness :
    num_chunks 1000 200 2500 = (2500 - 200 + 799) / 800 :=
  save_chunk_count_formula.2 2500 (by norm_num)

/-- Counterexample for C4 as stated: the chunk count at `L = 2500` is not
4. -/
theorem save_chunk_count_not_four : ¬ (num_chunks 1000 200 2500 = 4) := by
  have h := num_chunks_formula 1000 200 (by norm_num) 2500 (by norm_num)
  rw [h]
  norm_num

/-- C5 (amended): with zero logged events, `get_aggregated_metrics` attempts
no division and leaves the aggregated record unchanged — every derived-rate
field of every stream is *absent* from the result (so a reader defaulting a
missing field to 0, as the report renderer does, observes 0), rather than
present with value 0. -/
theorem zero_events_rates_absent :
    get_aggregated_metrics initialAggState = initialAggState ∧
    (get_aggregated_metrics initialAggState).prompts.average_response_length = none ∧
    (get_aggregated_metrics initialAggState).prompts.refusal_rate = none ∧
    (get_aggregated_metrics initialAggState).prompts.format_compliance_rate = none ∧
    (get_aggregated_metrics initialAggState).prompts.average_quality_score = none ∧
    (get_aggregated_metrics initialAggState).rag.average_chunks_retrieved = none ∧
    (get_aggregated_metrics initialAggState).rag.average_retrieval_latency = none ∧
    (get_aggregated_metrics initialAggState).rag.average_confidence_score = none ∧
    (get_aggregated_metrics initialAggState).rag.average_source_diversity = none ∧
    (get_aggregated_metrics initialAggState).agents.task_completion_rate = none ∧
    (get_aggregated_metrics initialAggState).agents.average_steps_to_completion = none ∧
    (get_aggregated_metrics initialAggState).agents.average_cost_per_task = none ∧
    (get_aggregated_metrics initialAggState).system.task_success_rate = none ∧
    (get_aggregated_metrics initialAggState).system.average_latency = none ∧
    (get_aggregated_metrics initialAggState).system.average_cost_per_request = none ∧
    (get_aggregated_metrics initialAggState).system.error_rate = none := by
  refine ⟨rfl, ?_, ?_, ?_, ?_, ?_, ?_, ?_, ?_, ?_, ?_, ?_, ?_, ?_, ?_, ?_⟩ <;> rfl

/-- Counterexample for C5 as stated: with zero logged events the refusal
rate is not returned as 0 — the field is absent from the result. -/
theorem zero_events_rate_not_zero_cex :
    ¬ ((get_aggregated_metrics initialAggState).prompts.refusal_rate = some 0) := by
  decide

/-- C6: evaluation at the failing input.  On a store holding one chunk id
whose backend `delete` raises, `clear_all_memories` still returns `True`
although `delete_memory` reported failure and the chunk is still stored:
the success boolean of `delete_memory` is discarded and all exceptions are
swallowed, so the "full round-trip succeeded" return value of the claim (and
of the function's own docstring) is not computed. -/
theorem clear_all_ignores_delete_failure :
    (clear_all_memories ⟨["chunk-1"], false, true⟩).1 = true ∧
    (delete_memory ⟨["chunk-1"], false, true⟩ ["chunk-1"]).1 = false ∧
    (clear_all_memories ⟨["chunk-1"], false, true⟩).2.stored_ids = ["chunk-1"] := by
  refine ⟨rfl, rfl, rfl⟩

/-- The aggregated state after one `log_prompt_metrics` call (quality 0.9,
format-compliant, not refused, response length 120) on a fresh logger. -/
def st_after_one_prompt : AggState :=
  log_prompt_metrics initialAggState 0.9 true false 120

/-- C7: evaluation at the failing input.  `get_aggregated_metrics` is *not*
read-only: `metrics = self.aggregated_metrics.copy()` is a shallow copy, so
assigning the derived rates into `metrics["prompts"]` stores them into the
logger's own inner dict.  After one prompt event, a `get_aggregated` call
changes the internal aggregated record: derived-rate fields appear
(`refusal_rate = 0.0`, `average_response_length = 120.0`,
`average_quality_score = 0.9`), while the running totals themselves are
unchanged. -/
theorem get_aggregated_mutates_state :
    get_aggregated_metrics st_after_one_prompt ≠ st_after_one_prompt ∧
    st_after_one_prompt.prompts.refusal_rate = none ∧
    (get_aggregated_metrics st_after_one_prompt).prompts.refusal_rate = some 0 ∧
    (get_aggregated_metrics st_after_one_prompt).prompts.average_response_length = some 120 ∧
    (get_aggregated_metrics st_after_one_prompt).prompts.average_quality_score = some 0.9 ∧
    (get_aggregated_metrics st_after_one_prompt).prompts.total_requests
      = st_after_one_prompt.prompts.total_requests ∧
    (get_aggregated_metrics st_after_one_prompt).prompts.quality_scores
      = st_after_one_prompt.prompts.quality_scores := by
  have h3 : (get_aggregated_metrics st_after_one_prompt).prompts.refusal_rate = some 0 := by
    norm_num [get_aggregated_metrics, st_after_one_prompt, log_prompt_metrics, initialAggState]
  have h4 : (get_aggregated_metrics st_after_one_prompt).prompts.average_response_length
      = some 120 := by
    norm_num [get_aggregated_metrics, st_after_one_prompt, log_prompt_metrics, initialAggState]
  have h5 : (get_aggregated_metrics st_after_one_prompt).prompts.average_quality_score
      = some 0.9 := by
    norm_num [get_aggregated_metrics, st_after_one_prompt, log_prompt_metrics, initialAggState]
  have h2 : st_after_one_prompt.prompts.refusal_rate = none := rfl
  refine ⟨?_, h2, h3, h4, h5, rfl, rfl⟩
  intro heq
  rw [heq, h2] at h3
  exact Option.noConfusion h3

/-- C1: with the metrics collaborator attached, every call to
`retrieve_memories_with_scores` — with-score success, fallback success, or
exception — emits exactly one Retrieval metric event (`log_rag_metrics`
call), and on failure that event carries `num_chunks_retrieved = 0` (with an
empty score list and zero diversity) while the call returns the empty list
instead of raising. -/
theorem retrieval_always_logs_one_event (call : SearchCall) (latency : ℚ) :
    ((retrieve_memories_with_scores call true latency).2).length = 1 ∧
    (∀ msg : String,
      call = SearchCall.withScore (Except.error msg) ∨
        call = SearchCall.plain (Except.error msg) →
      retrieve_memories_with_scores call true latency =
        ([], [{ retrieval_confidence_scores := []
                num_chunks_retrieved := 0
                source_diversity := 0
                retrieval_latency := latency }])) := by
  constructor
  · rcases call with res | res <;> rcases res with res | e <;>
      simp [retrieve_memories_with_scores]
  · intro msg h
    rcases h with h | h <;> subst h <;> rfl

/-- Witness for C1 on the exception path. -/
theorem retrieval_always_logs_one_event_witness :
    ((retrieve_memories_with_scores (SearchCall.withScore (Except.error "db down"))
        true 0).2).length = 1 ∧
    retrieve_memories_with_scores (SearchCall.withScore (Except.error "db down")) true 0 =
      ([], [{ retrieval_confidence_scores := []
              num_chunks_retrieved := 0
              source_diversity := 0
              retrieval_latency := 0 }]) :=
  ⟨(retrieval_always_logs_one_event (SearchCall.withScore (Except.error "db down")) 0).1,
   (retrieval_always_logs_one_event (SearchCall.withScore (Except.error "db down")) 0).2
     "db down" (Or.inl rfl)⟩

/-- C10: a successful retrieval that finds nothing logs
`confidence_scores = [0.0]` (one element, not empty) with
`num_chunks_retrieved = 0`; `log_rag_metrics` concatenates the event's
scores onto the aggregator's confidence list, so each empty-but-successful
retrieval contributes one `0.0` entry, which strictly lowers a positive
average confidence; only the exception path logs an empty confidence
list. -/
theorem empty_retrieval_logs_zero_score (latency : ℚ) (st : AggState) :
    (retrieve_memories_with_scores (SearchCall.withScore (Except.ok [])) true latency).2 =
      [{ retrieval_confidence_scores := [0]
         num_chunks_retrieved := 0
         source_diversity := 0
         retrieval_latency := latency }] ∧
    (∀ ev : RagEvent, (log_rag_metrics st ev).rag.confidence_scores =
      st.rag.confidence_scores ++ ev.retrieval_confidence_scores) ∧
    (∀ call : SearchCall, ∀ ev ∈ (retrieve_memories_with_scores call true latency).2,
      ev.retrieval_confidence_scores = [] →
      (∃ msg, call = SearchCall.withScore (Except.error msg)) ∨
        (∃ msg, call = SearchCall.plain (Except.error msg))) ∧
    (∀ l : List ℚ, l ≠ [] → 0 < l.sum / (l.length : ℚ) →
      (l ++ [(0 : ℚ)]).sum / (((l ++ [(0 : ℚ)]).length : Nat) : ℚ) < l.sum / (l.length : ℚ)) := by
  refine ⟨rfl, fun ev => rfl, ?_, ?_⟩
  · intro call ev hmem hempty
    rcases call with res | res <;> rcases res with msg | res
    · exact Or.inl ⟨msg, rfl⟩
    · rcases res with _ | ⟨p, ps⟩ <;>
        simp [retrieve_memories_with_scores] at hmem <;>
        rw [hmem] at hempty <;> simp at hempty
    · exact Or.inr ⟨msg, rfl⟩
    · rcases res with _ | ⟨d, ds⟩ <;>
        simp [retrieve_memories_with_scores] at hmem <;>
        rw [hmem] at hempty <;> simp at hempty
  · intro l hl hpos
    have hlen : (0 : ℚ) < (l.length : ℚ) := by
      exact_mod_cast List.length_pos.mpr hl
    have hsum : 0 < l.sum := by
      rcases (div_pos_iff.mp hpos) with ⟨hs, _⟩ | ⟨_, hneg⟩
      · exact hs
      · exact absurd hneg (not_lt.mpr hlen.le)
    have hlt : (l.length : ℚ) < ((l ++ [(0 : ℚ)]).length : ℚ) := by
      simp [List.length_append]
    have hlen2 : (0 : ℚ) < ((l ++ [(0 : ℚ)]).length : ℚ) := lt_trans hlen hlt
    have hs : (l ++ [(0 : ℚ)]).sum = l.sum := by simp
    rw [hs]
    exact (div_lt_div_iff_of_pos_left hsum hlen2 hlen).mpr hlt

/-- Witness for C10: empty success on a fresh logger, error path, and a
concrete positive-average list. -/
theorem empty_retrieval_logs_zero_score_witness :
    (retrieve_memories_with_scores (SearchCall.withScore (Except.ok [])) true 0).2 =
      [{ retrieval_confidence_scores := [0]
         num_chunks_retrieved := 0
         source_diversity := 0
         retrieval_latency := 0 }] ∧
    (log_rag_metrics initialAggState ⟨[0], 0, 0, 0⟩).rag.confidence_scores = [0] ∧
    ((∃ msg, SearchCall.withScore (Except.error "boom")
          = SearchCall.withScore (Except.error msg)) ∨
      (∃ msg, SearchCall.withScore (Except.error "boom")
          = SearchCall.plain (Except.error msg))) ∧
    (([(1 : ℚ)] ++ [(0 : ℚ)]).sum / ((([(1 : ℚ)] ++ [(0 : ℚ)]).length : Nat) : ℚ)
      < [(1 : ℚ)].sum / (([(1 : ℚ)].length : Nat) : ℚ)) := by
  have h := empty_retrieval_logs_zero_score 0 initialAggState
  refine ⟨h.1, ?_, ?_, ?_⟩
  · have h2 := h.2.1 ⟨[0], 0, 0, 0⟩
    simpa [initialAggState] using h2
  · exact h.2.2.1 (SearchCall.withScore (Except.error "boom")) ⟨[], 0, 0, 0⟩
      (by simp [retrieve_memories_with_scores]) rfl
  · exact h.2.2.2 [(1 : ℚ)] (by simp) (by simp)
